import Mathlib

/-!
Verification of the BOL (Bill of Lading) OCR application.

The repository has three source files:
- `src/server/server.js` — an Express service exposing `POST /api/process-image`:
  it stores the uploaded image, runs Tesseract OCR, builds a prompt embedding the
  OCR text, calls a hosted vision model, parses the model completion (strict JSON
  parse after code-fence stripping, with a regex fallback), deletes the temporary
  file and answers with the three extracted fields plus the OCR text truncated to
  500 characters.
- `src/unnamed/part_001` — a second, near-identical copy of the same server.
- `src/unnamed/part_000` — the React upload/display client.

External collaborators (the Tesseract OCR engine, the hosted model, the JSON
parser builtin and the filesystem read of the uploaded image) are modelled as
oracles carried in an `Env` record; everything the code of the repository does to
their outputs is embedded as executable Lean functions over `String`/`List Char`.
-/

/-- Model of a JavaScript value as produced by `JSON.parse` (and of the object
literal built by the regex fallback). `vundefined` stands for the JS value
`undefined`, which `JSON.parse` itself never produces but which property access
on a non-object yields. -/
inductive JsValue where
  | vnull
  | vundefined
  | vbool (b : Bool)
  | vnum (n : Int)
  | vstr (s : String)
  | varr (elems : List JsValue)
  | vobj (fields : List (String × JsValue))

/-- First-key-wins association lookup, modelling JS property access on the
field list of an object; a missing key reads as `undefined`. -/
def lookupField : List (String × JsValue) → String → JsValue
  | [], _ => .vundefined
  | (k, v) :: rest, key => if k = key then v else lookupField rest key

/-- Property access `v[key]` on a modelled JS value: object fields are looked
up, any non-object read yields `undefined`. -/
def JsValue.getField : JsValue → String → JsValue
  | .vobj fs, key => lookupField fs key
  | _, _ => .vundefined

/-- In JS, reading a property of `null` or `undefined` throws a `TypeError`;
reading a property of any other non-object value merely yields `undefined`. -/
def jsPropThrows : JsValue → Bool
  | .vnull => true
  | .vundefined => true
  | _ => false

/-- Whitespace class of the JS regular-expression escape `\s` (and of
`String.prototype.trim`), restricted to the ASCII whitespace characters. -/
def isJsWs (c : Char) : Bool :=
  c = ' ' || c = '\t' || c = '\n' || c = '\r' || c = '\x0b' || c = '\x0c'

/-- Model of `String.prototype.trim`: drop the whitespace run at both ends. -/
def trimChars (l : List Char) : List Char :=
  ((l.dropWhile isJsWs).reverse.dropWhile isJsWs).reverse

/-- Model of `s.replace(/PAT\n?/g, '')` for a literal pattern `pat`: scan left
to right and delete every non-overlapping occurrence of `pat`, each together
with one directly following newline if present (the greedy `\n?`). The fuel
argument is instantiated with the length of the list; every recursive call
consumes at least one character when `pat` is nonempty, so the fuel never runs
out before the scan finishes. -/
def stripPat (pat : List Char) : Nat → List Char → List Char
  | 0, s => s
  | _ + 1, [] => []
  | fuel + 1, c :: rest =>
    if pat.isPrefixOf (c :: rest) then
      match (c :: rest).drop pat.length with
      | '\n' :: t => stripPat pat fuel t
      | t => stripPat pat fuel t
    else
      c :: stripPat pat fuel rest

/-- The literal part of the first fence pattern of
`result.replace(/```json\n?/g, '')`. -/
def jsonFencePat : List Char := "```json".data

/-- The literal part of the second fence pattern of
`result.replace(/```\n?/g, '')`. -/
def fencePat : List Char := "```".data

/-- Model of the cleaning step
`result.replace(/```json\n?/g, '').replace(/```\n?/g, '').trim()`
applied to the model completion before the strict JSON parse. -/
def stripFences (s : String) : String :=
  let l0 := s.data
  let l1 := stripPat jsonFencePat l0.length l0
  let l2 := stripPat fencePat l1.length l1
  String.mk (trimChars l2)

/-- Model of JavaScript `s.substring(0, n)`: the first `min n (length s)`
characters of `s`. -/
def jsSubstring0 (s : String) (n : Nat) : String :=
  String.mk (s.data.take n)

/-- Attempt to match the regular expression `/"KEY":\s*"([^"]+)"/` at the very
start of `s`, returning the capture of group 1 on success. Greedy `\s*` and
greedy `[^"]+` need no backtracking here because the character that must follow
each of them is `"`, which belongs to neither class, so maximal munch is exact.
The capture must be nonempty (`+`) and the closing quote must be present. -/
def matchKeyAt (key : List Char) (s : List Char) : Option (List Char) :=
  let lit := '"' :: (key ++ ['"', ':'])
  if lit.isPrefixOf s then
    match (s.drop lit.length).dropWhile isJsWs with
    | '"' :: t =>
      let cap := t.takeWhile (fun c => c != '"')
      if cap.isEmpty then none
      else if (t.drop cap.length).isEmpty then none
      else some cap
    | _ => none
  else none

/-- Model of `s.match(/"KEY":\s*"([^"]+)"/)` (without the `g` flag): return the
capture of group 1 at the leftmost position where the whole pattern matches, or
`none` when no position matches. -/
def scanKey (key : List Char) : List Char → Option (List Char)
  | [] => none
  | c :: rest =>
    match matchKeyAt key (c :: rest) with
    | some cap => some cap
    | none => scanKey key rest

/-- Model of `m ? m[1] : null` on the result of a field regex match. -/
def capToJs : Option (List Char) → JsValue
  | some cs => .vstr (String.mk cs)
  | none => .vnull

/-- Characters of the key of `/"bolNumber":\s*"([^"]+)"/`. -/
def bolKey : List Char := "bolNumber".data

/-- Characters of the key of `/"weight":\s*"([^"]+)"/`. -/
def weightKey : List Char := "weight".data

/-- Characters of the key of `/"weightType":\s*"([^"]+)"/`. -/
def weightTypeKey : List Char := "weightType".data

/-- Oracles for the external collaborators of one request:
`readFileBase64` models `fs.readFileSync(imagePath)` followed by
`.toString("base64")`; `ocr` models `Tesseract.recognize(imagePath, "eng", …)`
(its recognized `text` on success, the thrown error message on failure);
`modelCall` models the `openai.chat.completions.create` call as a function of
the prompt text and the inline image URL (the completion content on success,
the thrown error message on failure); `jsonParse` models the `JSON.parse`
builtin (`none` models a thrown `SyntaxError`). -/
structure Env where
  readFileBase64 : String → String
  ocr : String → Except String String
  modelCall : String → String → Except String String
  jsonParse : String → Option JsValue

/-- Body of the `data` object of a 200 response of `/api/process-image`. -/
structure SuccessData where
  bolNumber : JsValue
  weight : JsValue
  weightType : JsValue
  rawOcrText : String

/-- The three response shapes of the `/api/process-image` handler:
`success` is the 200 body `{success: true, data: …}`, `clientError` is a 400
body `{error: …}`, `serverError` is the 500 body `{error: …, details: …}`. -/
inductive Response where
  | success (data : SuccessData)
  | clientError (error : String)
  | serverError (error details : String)

/-- Observable outcome of one `/api/process-image` request: the HTTP response,
whether the transient uploaded file is still on disk afterwards, and whether
the OCR engine and the language model were invoked. -/
structure HandlerOutcome where
  response : Response
  fileRemains : Bool
  ocrCalled : Bool
  modelCalled : Bool

/-- Modelled detail message of the `TypeError` thrown when the handler reads
`extractedData.bolNumber` and the strict JSON parse produced `null`: the exact
JS message text is not load-bearing for any claim, only that this path is a
server error rather than a success. -/
def nullReadMsg : String := "Cannot read properties of null or undefined (reading bolNumber)"

namespace Server

/-- Part of the template literal `prompt` of `processImageForBOLData` in
`src/server/server.js` before the `${ocrText}` interpolation, byte for byte. -/
def promptPre : String :=
  "\n    Analyze this image and the OCR text below to extract BOL (Bill of Lading) information.\n    \n    OCR Text:\n    "

/-- Part of the template literal `prompt` of `processImageForBOLData` in
`src/server/server.js` after the `${ocrText}` interpolation, byte for byte
(including the two trailing blanks after "(second priority)"). -/
def promptPost : String :=
  "\n    \n    Please extract and return ONLY:\n    1. BOL Number (Bill of Lading number)\n    2. Weight - Priority order (return the FIRST one you find):\n       - Net Weight or Net (highest priority)\n       - Shipping Weight (second priority)  \n       - Any other weight including Gross Weight (lowest priority)\n    3. Weight Type - specify which type was found (e.g., \"Net Weight\", \"Shipping Weight\", \"Gross Weight\", \"Weight\")\n    \n    Return the response in this exact JSON format:\n    \x7b\n      \"bolNumber\": \"extracted BOL number or null if not found\",\n      \"weight\": \"extracted weight with units or null if not found\",\n      \"weightType\": \"type of weight found (Net Weight, Shipping Weight, Gross Weight, etc.) or null\"\n    \x7d\n    \n    If you cannot find either value, return null for that field.\n    "

/-- The template literal `prompt` of `src/server/server.js`: the fixed text
with the raw OCR text interpolated at `${ocrText}`. -/
def promptFor (ocrText : String) : String :=
  promptPre ++ ocrText ++ promptPost

/-- Embedding of `processImageForBOLData` of `src/server/server.js`: read the
image as base64, build the prompt, call the model with the prompt and the
inline `data:image/jpeg;base64,…` URL, then parse the completion — strict JSON
parse of the fence-stripped text, and on parse failure the regex fallback
`/"bolNumber":\s*"([^"]+)"/` (and likewise for `weight` and `weightType`)
against the raw completion, each unmatched field becoming `null`. An `error`
result models the function throwing (only the model call can throw here; the
parse failure is caught internally and never escapes). -/
def processImageForBOLData (env : Env) (imagePath ocrText : String) : Except String JsValue :=
  let base64Image := env.readFileBase64 imagePath
  let prompt := promptFor ocrText
  match env.modelCall prompt ("data:image/jpeg;base64," ++ base64Image) with
  | .error e => .error e
  | .ok result =>
    match env.jsonParse (stripFences result) with
    | some parsed => .ok parsed
    | none =>
      .ok (.vobj [("bolNumber", capToJs (scanKey bolKey result.data)),
                  ("weight", capToJs (scanKey weightKey result.data)),
                  ("weightType", capToJs (scanKey weightTypeKey result.data))])

/-- Embedding of the `app.post("/api/process-image", …)` handler of
`src/server/server.js`. With no file attached it answers 400 immediately with
no external call; otherwise it runs OCR, then `processImageForBOLData`, deletes
the uploaded file (`fs.unlinkSync` on the success path, the guarded
`fs.existsSync`/`fs.unlinkSync` in the catch block on every failure path) and
answers 200 with the three fields and the OCR text truncated to 500 characters,
or 500 when OCR or the model call threw. Reading a field of a parsed `null`
value throws inside the `try` block and is answered as a 500 as well. -/
def processImageHandler (env : Env) (file : Option String) : HandlerOutcome :=
  match file with
  | none => ⟨.clientError ("No image file provided"), false, false, false⟩
  | some imagePath =>
    match env.ocr imagePath with
    | .error e => ⟨.serverError ("Failed to process image") e, false, true, false⟩
    | .ok text =>
      match processImageForBOLData env imagePath text with
      | .error e => ⟨.serverError ("Failed to process image") e, false, true, true⟩
      | .ok extractedData =>
        if jsPropThrows extractedData then
          ⟨.serverError ("Failed to process image") nullReadMsg, false, true, true⟩
        else
          ⟨.success ⟨extractedData.getField ("bolNumber"), extractedData.getField ("weight"),
                     extractedData.getField ("weightType"), jsSubstring0 text 500⟩,
           false, true, true⟩

end Server

namespace Alt

/-- Part of the template literal `prompt` of `processImageForBOLData` in
`src/unnamed/part_001` before the `${ocrText}` interpolation, byte for byte. -/
def promptPre : String :=
  "\n    Analyze this image and the OCR text below to extract BOL (Bill of Lading) information.\n    \n    OCR Text:\n    "

/-- Part of the template literal `prompt` of `processImageForBOLData` in
`src/unnamed/part_001` after the `${ocrText}` interpolation, byte for byte
(including the two trailing blanks after "(second priority)"). -/
def promptPost : String :=
  "\n    \n    Please extract and return ONLY:\n    1. BOL Number (Bill of Lading number)\n    2. Weight - Priority order (return the FIRST one you find):\n       - Net Weight or Net (highest priority)\n       - Shipping Weight (second priority)  \n       - Any other weight including Gross Weight (lowest priority)\n    3. Weight Type - specify which type was found (e.g., \"Net Weight\", \"Shipping Weight\", \"Gross Weight\", \"Weight\")\n    \n    Return the response in this exact JSON format:\n    \x7b\n      \"bolNumber\": \"extracted BOL number or null if not found\",\n      \"weight\": \"extracted weight with units or null if not found\",\n      \"weightType\": \"type of weight found (Net Weight, Shipping Weight, Gross Weight, etc.) or null\"\n    \x7d\n    \n    If you cannot find either value, return null for that field.\n    "

/-- The template literal `prompt` of `src/unnamed/part_001`. -/
def promptFor (ocrText : String) : String :=
  promptPre ++ ocrText ++ promptPost

/-- Embedding of `processImageForBOLData` of `src/unnamed/part_001`. The only
textual difference to the `src/server/server.js` version is an additional outer
`try { … } catch (error) { console.error(…); throw error; }` wrapper, which
logs and rethrows the same error and is therefore the identity on the
success/throw behaviour modelled here. -/
def processImageForBOLData (env : Env) (imagePath ocrText : String) : Except String JsValue :=
  let base64Image := env.readFileBase64 imagePath
  let prompt := promptFor ocrText
  match env.modelCall prompt ("data:image/jpeg;base64," ++ base64Image) with
  | .error e => .error e
  | .ok result =>
    match env.jsonParse (stripFences result) with
    | some parsed => .ok parsed
    | none =>
      .ok (.vobj [("bolNumber", capToJs (scanKey bolKey result.data)),
                  ("weight", capToJs (scanKey weightKey result.data)),
                  ("weightType", capToJs (scanKey weightTypeKey result.data))])

/-- Embedding of the `app.post("/api/process-image", …)` handler of
`src/unnamed/part_001`, transcribed the same way as the
`src/server/server.js` handler. -/
def processImageHandler (env : Env) (file : Option String) : HandlerOutcome :=
  match file with
  | none => ⟨.clientError ("No image file provided"), false, false, false⟩
  | some imagePath =>
    match env.ocr imagePath with
    | .error e => ⟨.serverError ("Failed to process image") e, false, true, false⟩
    | .ok text =>
      match processImageForBOLData env imagePath text with
      | .error e => ⟨.serverError ("Failed to process image") e, false, true, true⟩
      | .ok extractedData =>
        if jsPropThrows extractedData then
          ⟨.serverError ("Failed to process image") nullReadMsg, false, true, true⟩
        else
          ⟨.success ⟨extractedData.getField ("bolNumber"), extractedData.getField ("weight"),
                     extractedData.getField ("weightType"), jsSubstring0 text 500⟩,
           false, true, true⟩

end Alt

namespace Client

/-- The React state of the `App` component of `src/unnamed/part_000`:
the six `useState` hooks `bolNumber`, `weight`, `weightType`, `message`,
`isProcessing` and `uploadedImage` (the `dragOver` flag plays no role in the
claims and is omitted). -/
structure ClientState where
  bolNumber : String
  weight : String
  weightType : String
  message : String
  isProcessing : Bool
  uploadedImage : Option String

/-- Embedding of the synchronous front half of `processImage` of
`src/unnamed/part_000`, up to and including issuing the fetch: it sets
`isProcessing`, sets the message, clears `bolNumber` and `weight`, stores the
`FileReader` preview (the data URL read from the accepted file) and appends the
file to a `FormData` posted once to `/api/process-image`. The second component
counts the HTTP requests issued by this call. -/
def processImageStart (st : ClientState) (preview : String) : ClientState × Nat :=
  ({ st with
      isProcessing := true,
      message := "Processing image...",
      bolNumber := "",
      weight := "",
      uploadedImage := some preview }, 1)

/-- JavaScript falsiness of a `string | null` value: `null`, `undefined` and
the empty string are falsy. -/
def jsFalsy : Option String → Bool
  | none => true
  | some s => s.isEmpty

/-- The `data` object of the service response as the client reads it. -/
structure ApiResponseData where
  bolNumber : Option String
  weight : Option String
  weightType : Option String
  rawOcrText : String

/-- The service response as the client reads it (`result` in `processImage`). -/
structure ApiResponse where
  success : Bool
  data : ApiResponseData
  error : String

/-- Embedding of the response half of `processImage` of `src/unnamed/part_000`:
on `result.success` the three fields are populated with `x || ''`, the message
is set to the success text and then overwritten with the nothing-found text
when both `result.data.bolNumber` and `result.data.weight` are falsy; otherwise
the message is set to the error text; the `finally` block clears
`isProcessing` in every case. -/
def handleResponse (st : ClientState) (result : ApiResponse) : ClientState :=
  let st1 :=
    if result.success then
      let st2 := { st with
        bolNumber := result.data.bolNumber.getD "",
        weight := result.data.weight.getD "",
        weightType := result.data.weightType.getD "",
        message := "Image processed successfully!" }
      if jsFalsy result.data.bolNumber && jsFalsy result.data.weight then
        { st2 with message := "No BOL number or weight found in the image. Please try a clearer image." }
      else st2
    else
      { st with message := "Error: " ++ result.error }
  { st1 with isProcessing := false }

/-- Embedding of `clearData` of `src/unnamed/part_000`. -/
def clearData (st : ClientState) : ClientState :=
  { st with bolNumber := "", weight := "", weightType := "", message := "", uploadedImage := none }

end Client

/-- A predicate stating that `sub` occurs as a contiguous substring of `s`. -/
def ContainsSub (s sub : String) : Prop :=
  ∃ a b : String, s = a ++ sub ++ b

/-- The highest-priority line of the weight-priority rule of the prompt. -/
def netPriorityLine : String := "- Net Weight or Net (highest priority)"

/-- The second-priority line of the weight-priority rule of the prompt. -/
def shipPriorityLine : String := "- Shipping Weight (second priority)"

/-- The lowest-priority line of the weight-priority rule of the prompt. -/
def grossPriorityLine : String := "- Any other weight including Gross Weight (lowest priority)"

/-- The fixed JSON shape requested by the prompt, naming all three fields. -/
def jsonFormatBlock : String :=
  "Return the response in this exact JSON format:\n    \x7b\n      \"bolNumber\": \"extracted BOL number or null if not found\",\n      \"weight\": \"extracted weight with units or null if not found\",\n      \"weightType\": \"type of weight found (Net Weight, Shipping Weight, Gross Weight, etc.) or null\"\n    \x7d"

/-- The instruction of the prompt to return null for a field not found. -/
def nullInstructionLine : String := "If you cannot find either value, return null for that field."

/-- A syntactically well-shaped parse result: an object with exactly the keys
`bolNumber`, `weight` and `weightType` in order, each bound to a string or to
null. -/
def isExpectedShape : JsValue → Bool
  | .vobj [(k1, v1), (k2, v2), (k3, v3)] =>
    k1 = "bolNumber" && k2 = "weight" && k3 = "weightType" &&
    (match v1 with | .vstr _ => true | .vnull => true | _ => false) &&
    (match v2 with | .vstr _ => true | .vnull => true | _ => false) &&
    (match v3 with | .vstr _ => true | .vnull => true | _ => false)
  | _ => false

/-- A concrete environment for exercising the pipeline: OCR succeeds with a
short text and the model answers with a completion that is not JSON. -/
def c1Env : Env :=
  ⟨fun _ => "", fun _ => .ok ("hello ocr"), fun _ _ => .ok ("nope"), fun _ => none⟩

/-- A concrete uploaded-file path. -/
def c1File : String := "uploads/1-bol.png"

/-- The success body the pipeline produces under `c1Env`: all three fields
null (the fallback finds nothing in "nope") and the OCR text truncated. -/
def c1Data : SuccessData := ⟨.vnull, .vnull, .vnull, jsSubstring0 ("hello ocr") 500⟩

/-- A well-shaped parse result with a string `bolNumber` and null `weight` and
`weightType`. -/
def shapeExample : JsValue :=
  .vobj [("bolNumber", .vstr ("BOL-7731")), ("weight", .vnull), ("weightType", .vnull)]

/-- A concrete environment whose `JSON.parse` oracle succeeds with
`shapeExample`. -/
def c2Env : Env :=
  ⟨fun _ => "IMGB64", fun _ => .ok (""), fun _ _ => .ok ("model reply"), fun _ => some shapeExample⟩

/-- A non-JSON completion in which only the `bolNumber` field pattern matches:
the fallback must recover `bolNumber` and independently report the two
unmatched fields as null. -/
def mixedCompletion : String :=
  "Sorry, I cannot produce JSON. \"bolNumber\": \"ABC123\" is all I found"

/-- A concrete environment whose model answers `mixedCompletion` and whose
`JSON.parse` oracle always fails. -/
def c3Env : Env :=
  ⟨fun _ => "B64", fun _ => .ok ("ocr body"), fun _ _ => .ok mixedCompletion, fun _ => none⟩

/-- A client state in which a previous extraction left all three fields
displayed. -/
def c7State : Client.ClientState :=
  ⟨"B-1", "500 lbs", "Gross Weight", "", false, none⟩

/-- A client state as it looks while a request is in flight. -/
def c8State : Client.ClientState := ⟨"", "", "", "", true, none⟩

/-- A success response of the service in which both `bolNumber` and `weight`
are absent. -/
def c8Resp : Client.ApiResponse := ⟨true, ⟨none, none, some ("Net Weight"), "raw"⟩, ""⟩

/-- A completion on which matching against the raw text and matching against
the fence-stripped text disagree: raw matching captures the three backticks as
the weight, while stripping first would erase them and leave an empty value
that the pattern rejects. -/
def fenceCompletion : String := "\"weight\": \"```\""

/-- A non-JSON completion in which the `weight` field is present but bound to
the empty string, which the pattern `"([^"]+)"` rejects. -/
def emptyValCompletion : String := "not valid json \"weight\": \"\" end"

/-- A concrete environment whose model answers `emptyValCompletion` and whose
`JSON.parse` oracle always fails. -/
def c9Env : Env :=
  ⟨fun _ => "", fun _ => .ok (""), fun _ _ => .ok emptyValCompletion, fun _ => none⟩

/-- A concrete environment whose model answers `fenceCompletion` and whose
`JSON.parse` oracle always fails. -/
def c9FenceEnv : Env :=
  ⟨fun _ => "", fun _ => .ok (""), fun _ _ => .ok fenceCompletion, fun _ => none⟩

/-- Truncation to `n` characters never yields more than `n` characters. -/
theorem jsSubstring0_length_le (s : String) (n : Nat) : (jsSubstring0 s n).length ≤ n := by
  have h : (jsSubstring0 s n).length = (s.data.take n).length := rfl
  rw [h, List.length_take]
  exact min_le_left _ _

/-- Claim C1: every successful run of the `/api/process-image` pipeline
returns `rawOcrText` of length at most 500, equal to the first 500 characters
of the OCR engine output — for every `JSON.parse` oracle, hence regardless of
whether field extraction took the strict-parse branch or the fallback. -/
theorem c1_rawOcrText_truncated (env : Env) (f : String) (d : SuccessData)
    (h : (Server.processImageHandler env (some f)).response = Response.success d) :
    ∃ t : String, env.ocr f = Except.ok t ∧
      d.rawOcrText = jsSubstring0 t 500 ∧
      d.rawOcrText.length ≤ 500 ∧
      d.rawOcrText.data = t.data.take 500 := by
  cases hocr : env.ocr f with
  | error e =>
    simp only [Server.processImageHandler, hocr] at h
    exact Response.noConfusion h
  | ok t =>
    simp only [Server.processImageHandler, hocr] at h
    cases hp : Server.processImageForBOLData env f t with
    | error e =>
      simp only [hp] at h
      exact Response.noConfusion h
    | ok v =>
      simp only [hp] at h
      cases hv : jsPropThrows v with
      | true =>
        simp only [hv, if_true] at h
        exact Response.noConfusion h
      | false =>
        simp only [hv, if_false, Bool.false_eq_true] at h
        injection h with h2
        subst h2
        exact ⟨t, rfl, rfl, jsSubstring0_length_le t 500, rfl⟩

/-- Witness for C1 at a concrete environment and file. -/
theorem c1_witness :
    ∃ t : String, c1Env.ocr c1File = Except.ok t ∧
      c1Data.rawOcrText = jsSubstring0 t 500 ∧
      c1Data.rawOcrText.length ≤ 500 ∧
      c1Data.rawOcrText.data = t.data.take 500 :=
  c1_rawOcrText_truncated c1Env c1File c1Data rfl

/-- Claim C2: when the completion, after code-fence stripping, parses as JSON
of the expected `\x7bbolNumber, weight, weightType\x7d` shape,
`processImageForBOLData` returns exactly the parsed value — all field values,
nulls included, unchanged. -/
theorem c2_strict_parse_returned_unchanged (env : Env) (ip t c : String) (v : JsValue)
    (hm : env.modelCall (Server.promptFor t)
            ("data:image/jpeg;base64," ++ env.readFileBase64 ip) = Except.ok c)
    (hparse : env.jsonParse (stripFences c) = some v)
    (_hshape : isExpectedShape v = true) :
    Server.processImageForBOLData env ip t = Except.ok v := by
  simp only [Server.processImageForBOLData, hm, hparse]

/-- Witness for C2 at a concrete environment and a well-shaped parse. -/
theorem c2_witness :
    Server.processImageForBOLData c2Env ("uploads/2-bol.png") ("ocr text") =
      Except.ok shapeExample :=
  c2_strict_parse_returned_unchanged c2Env ("uploads/2-bol.png") ("ocr text")
    ("model reply") shapeExample rfl rfl rfl

/-- Claim C3: when the completion is not valid JSON after stripping,
`processImageForBOLData` recovers each field independently from the raw
completion via the field regexes — a matching pattern yields the capture, a
non-matching pattern yields null for that field only — and the non-JSON case
is not surfaced as an error: the function returns `ok` and the handler still
answers success. -/
theorem c3_fallback_fields_independent (env : Env) (t c f : String)
    (hocr : env.ocr f = Except.ok t)
    (hm : env.modelCall (Server.promptFor t)
            ("data:image/jpeg;base64," ++ env.readFileBase64 f) = Except.ok c)
    (hparse : env.jsonParse (stripFences c) = none) :
    Server.processImageForBOLData env f t =
      Except.ok (JsValue.vobj
        [("bolNumber", capToJs (scanKey bolKey c.data)),
         ("weight", capToJs (scanKey weightKey c.data)),
         ("weightType", capToJs (scanKey weightTypeKey c.data))]) ∧
    ∃ d, (Server.processImageHandler env (some f)).response = Response.success d := by
  have hfb : Server.processImageForBOLData env f t =
      Except.ok (JsValue.vobj
        [("bolNumber", capToJs (scanKey bolKey c.data)),
         ("weight", capToJs (scanKey weightKey c.data)),
         ("weightType", capToJs (scanKey weightTypeKey c.data))]) := by
    simp only [Server.processImageForBOLData, hm, hparse]
  refine ⟨hfb,
    ⟨⟨capToJs (scanKey bolKey c.data), capToJs (scanKey weightKey c.data),
      capToJs (scanKey weightTypeKey c.data), jsSubstring0 t 500⟩, ?_⟩⟩
  simp only [Server.processImageHandler, hocr, hfb]
  exact rfl

/-- Witness for C3: the model answer contains only a `bolNumber` field, which
is captured while `weight` and `weightType` come back null. -/
theorem c3_witness :
    Server.processImageForBOLData c3Env ("uploads/3-bol.png") ("ocr body") =
      Except.ok (JsValue.vobj
        [("bolNumber", capToJs (scanKey bolKey mixedCompletion.data)),
         ("weight", capToJs (scanKey weightKey mixedCompletion.data)),
         ("weightType", capToJs (scanKey weightTypeKey mixedCompletion.data))]) ∧
    ∃ d, (Server.processImageHandler c3Env (some ("uploads/3-bol.png"))).response =
      Response.success d :=
  c3_fallback_fields_independent c3Env ("ocr body") mixedCompletion ("uploads/3-bol.png")
    rfl rfl rfl

/-- Claim C4: for every request that reached the pipeline, whatever the
outcome (success, extraction failure, parse-value type error or OCR failure),
the transient uploaded file no longer exists on disk when the response is
produced. -/
theorem c4_temp_file_always_deleted (env : Env) (f : String) :
    (Server.processImageHandler env (some f)).fileRemains = false := by
  cases hocr : env.ocr f with
  | error e => simp [Server.processImageHandler, hocr]
  | ok t =>
    cases hp : Server.processImageForBOLData env f t with
    | error e => simp [Server.processImageHandler, hocr, hp]
    | ok v =>
      simp only [Server.processImageHandler, hocr, hp]
      cases hv : jsPropThrows v <;> simp [hv]

/-- Claim C5: with no file attached the handler answers the 400-class response
with error text exactly "No image file provided" and invokes neither the OCR
engine nor the model. -/
theorem c5_no_file_no_external_calls (env : Env) :
    (Server.processImageHandler env none).response =
      Response.clientError ("No image file provided") ∧
    (Server.processImageHandler env none).ocrCalled = false ∧
    (Server.processImageHandler env none).modelCalled = false :=
  ⟨rfl, rfl, rfl⟩

set_option maxRecDepth 100000 in
/-- Claim C6: for every OCR text, the instruction built for the model embeds
the OCR text verbatim between the two fixed prompt halves, states the weight
priority rule with Net above Shipping above any other weight including Gross
(the three rule lines occur in that order), requests the fixed JSON shape
naming the three fields, and instructs the model to return null for a field
not found. -/
theorem c6_prompt_embeds_text_and_rules (t : String) :
    Server.promptFor t = Server.promptPre ++ t ++ Server.promptPost ∧
    (∃ a b c d : String, Server.promptPost =
      a ++ netPriorityLine ++ b ++ shipPriorityLine ++ c ++ grossPriorityLine ++ d) ∧
    ContainsSub Server.promptPost jsonFormatBlock ∧
    ContainsSub Server.promptPost nullInstructionLine := by
  refine ⟨rfl, ?_, ?_, ?_⟩
  · exact ⟨"\n    \n    Please extract and return ONLY:\n    1. BOL Number (Bill of Lading number)\n    2. Weight - Priority order (return the FIRST one you find):\n       ",
      "\n       ",
      "  \n       ",
      "\n    3. Weight Type - specify which type was found (e.g., \"Net Weight\", \"Shipping Weight\", \"Gross Weight\", \"Weight\")\n    \n    Return the response in this exact JSON format:\n    \x7b\n      \"bolNumber\": \"extracted BOL number or null if not found\",\n      \"weight\": \"extracted weight with units or null if not found\",\n      \"weightType\": \"type of weight found (Net Weight, Shipping Weight, Gross Weight, etc.) or null\"\n    \x7d\n    \n    If you cannot find either value, return null for that field.\n    ",
      rfl⟩
  · exact ⟨"\n    \n    Please extract and return ONLY:\n    1. BOL Number (Bill of Lading number)\n    2. Weight - Priority order (return the FIRST one you find):\n       - Net Weight or Net (highest priority)\n       - Shipping Weight (second priority)  \n       - Any other weight including Gross Weight (lowest priority)\n    3. Weight Type - specify which type was found (e.g., \"Net Weight\", \"Shipping Weight\", \"Gross Weight\", \"Weight\")\n    \n    ",
      "\n    \n    If you cannot find either value, return null for that field.\n    ",
      rfl⟩
  · exact ⟨"\n    \n    Please extract and return ONLY:\n    1. BOL Number (Bill of Lading number)\n    2. Weight - Priority order (return the FIRST one you find):\n       - Net Weight or Net (highest priority)\n       - Shipping Weight (second priority)  \n       - Any other weight including Gross Weight (lowest priority)\n    3. Weight Type - specify which type was found (e.g., \"Net Weight\", \"Shipping Weight\", \"Gross Weight\", \"Weight\")\n    \n    Return the response in this exact JSON format:\n    \x7b\n      \"bolNumber\": \"extracted BOL number or null if not found\",\n      \"weight\": \"extracted weight with units or null if not found\",\n      \"weightType\": \"type of weight found (Net Weight, Shipping Weight, Gross Weight, etc.) or null\"\n    \x7d\n    \n    ",
      "\n    ",
      rfl⟩

/-- Counterexample to claim C7 as stated: accepting a file does not clear the
previously displayed `weightType` — starting from a state whose `weightType`
reads "Gross Weight", the field still reads "Gross Weight" (in particular it
is not cleared to the empty string) after `processImage` begins. -/
theorem c7_counterexample :
    ¬ ((Client.processImageStart c7State ("data:image/png;base64,AA")).1.weightType = "") := by
  decide

/-- Claim C7 as amended: on accepting a file the client clears `bolNumber` and
`weight` (but leaves `weightType` unchanged), marks itself processing, shows
the local preview, and issues exactly one HTTP request carrying the file. -/
theorem c7_amended_accept_behaviour (st : Client.ClientState) (preview : String) :
    (Client.processImageStart st preview).1.bolNumber = "" ∧
    (Client.processImageStart st preview).1.weight = "" ∧
    (Client.processImageStart st preview).1.weightType = st.weightType ∧
    (Client.processImageStart st preview).1.isProcessing = true ∧
    (Client.processImageStart st preview).1.message = "Processing image..." ∧
    (Client.processImageStart st preview).1.uploadedImage = some preview ∧
    (Client.processImageStart st preview).2 = 1 :=
  ⟨rfl, rfl, rfl, rfl, rfl, rfl, rfl⟩

/-- Claim C8: when the service reports success and both `bolNumber` and
`weight` are absent, the displayed message is the nothing-found message, which
differs from the plain success message. -/
theorem c8_nothing_found_message (st : Client.ClientState) (r : Client.ApiResponse)
    (hs : r.success = true) (hb : r.data.bolNumber = none) (hw : r.data.weight = none) :
    (Client.handleResponse st r).message =
      "No BOL number or weight found in the image. Please try a clearer image." ∧
    (Client.handleResponse st r).message ≠ "Image processed successfully!" := by
  have h : (Client.handleResponse st r).message =
      "No BOL number or weight found in the image. Please try a clearer image." := by
    simp [Client.handleResponse, hs, hb, hw, Client.jsFalsy]
  refine ⟨h, ?_⟩
  rw [h]
  decide

/-- Witness for C8 at a concrete state and a success response with both fields
absent. -/
theorem c8_witness :
    (Client.handleResponse c8State c8Resp).message =
      "No BOL number or weight found in the image. Please try a clearer image." ∧
    (Client.handleResponse c8State c8Resp).message ≠ "Image processed successfully!" :=
  c8_nothing_found_message c8State c8Resp rfl rfl rfl

/-- Claim C9: the regex fallback matches against the raw completion text, not
the fence-stripped text (first conjunct: for every non-JSON completion the
fallback fields are the captures over the raw characters; second and third
conjuncts: on `fenceCompletion` the raw text matches while the stripped text
would not), and a field present with an empty-string value fails the pattern
and is reported as null (fourth and fifth conjuncts). -/
theorem c9_fallback_raw_text_and_empty_value :
    (∀ (env : Env) (ip t c : String),
        env.modelCall (Server.promptFor t)
          ("data:image/jpeg;base64," ++ env.readFileBase64 ip) = Except.ok c →
        env.jsonParse (stripFences c) = none →
        Server.processImageForBOLData env ip t =
          Except.ok (JsValue.vobj
            [("bolNumber", capToJs (scanKey bolKey c.data)),
             ("weight", capToJs (scanKey weightKey c.data)),
             ("weightType", capToJs (scanKey weightTypeKey c.data))])) ∧
    scanKey weightKey fenceCompletion.data = some ("```".data) ∧
    scanKey weightKey (stripFences fenceCompletion).data = none ∧
    scanKey weightKey emptyValCompletion.data = none ∧
    Server.processImageForBOLData c9Env ("uploads/9-bol.png") ("") =
      Except.ok (JsValue.vobj
        [("bolNumber", JsValue.vnull), ("weight", JsValue.vnull),
         ("weightType", JsValue.vnull)]) := by
  refine ⟨?_, rfl, rfl, rfl, rfl⟩
  intro env ip t c hm hparse
  simp only [Server.processImageForBOLData, hm, hparse]

/-- Witness for C9: the universally quantified conjunct applied to the
fence-valued completion, whose raw-text match captures the backticks. -/
theorem c9_witness :
    Server.processImageForBOLData c9FenceEnv ("uploads/9f-bol.png") ("") =
      Except.ok (JsValue.vobj
        [("bolNumber", capToJs (scanKey bolKey fenceCompletion.data)),
         ("weight", capToJs (scanKey weightKey fenceCompletion.data)),
         ("weightType", capToJs (scanKey weightTypeKey fenceCompletion.data))]) :=
  c9_fallback_raw_text_and_empty_value.1 c9FenceEnv ("uploads/9f-bol.png") ("")
    fenceCompletion rfl rfl

/-- Claim C10: the two server variants implement extensionally equal
extraction behaviour — for every environment of oracle outcomes, image path
and OCR text the two `processImageForBOLData` functions agree, the two
`/api/process-image` handlers produce the same outcome on every request, and
the two prompt builders are the same function. -/
theorem c10_variants_extensionally_equal :
    (∀ (env : Env) (imagePath ocrText : String),
        Server.processImageForBOLData env imagePath ocrText =
          Alt.processImageForBOLData env imagePath ocrText) ∧
    (∀ (env : Env) (file : Option String),
        Server.processImageHandler env file = Alt.processImageHandler env file) ∧
    Server.promptFor = Alt.promptFor :=
  ⟨fun _ _ _ => rfl, fun _ _ => rfl, rfl⟩
